import Mathlib

/-!
Shallow embedding of the `threads_poster` package (config.py, oci_storage.py,
threads_api.py, claude_caption.py, main.py) and proofs about its claims.

External services (OCI Object Storage, the Threads Graph API, the Anthropic
API, Telegram) are opaque request/response collaborators: each call's outcome
is supplied by an `Env` record, and the orchestrator `main` is a pure function
of that environment returning its exit code together with a trace of the
external calls it performed.  Exceptions are modelled as `Except` values of
the error kinds the code declares and catches (OCIStorageError,
ThreadsApiError, ClaudeCaptionError, RuntimeError/ValueError for config).
-/

set_option linter.unusedVariables false

namespace ThreadsPoster

/-! ## Python string semantics helpers -/

/-- Characters removed by Python `str.strip()` (ASCII whitespace). -/
def pyIsSpace (c : Char) : Bool :=
  c = ' ' || c = '\t' || c = '\n' || c = '\r' || c = Char.ofNat 11 || c = Char.ofNat 12

/-- Python `str.strip()`. -/
def pyStrip (s : String) : String :=
  String.mk (((s.toList.dropWhile pyIsSpace).reverse.dropWhile pyIsSpace).reverse)

/-- Python `str.lower()` (ASCII case folding suffices for the token sets used). -/
def pyLower (s : String) : String :=
  String.mk (s.toList.map Char.toLower)

/-- Python `a or b` on strings: `a` when truthy (non-empty), else `b`. -/
def pyOrStr (a b : String) : String :=
  if a = "" then b else a

/-- Python `a or b` on `Optional[str]`: `a` when truthy (present, non-empty), else `b`. -/
def pyOrOpt (a b : Option String) : Option String :=
  match a with
  | some s => if s = "" then b else some s
  | none => b

/-- Python truthiness of an `Optional[str]`. -/
def pyTruthyOpt (o : Option String) : Bool :=
  match o with
  | some s => s ≠ ""
  | none => false

/-- Accumulate decimal digits; fails on a non-digit. -/
def decDigitsAux (acc : Nat) : List Char → Option Nat
  | [] => some acc
  | c :: cs => if c.isDigit then decDigitsAux (10 * acc + (c.toNat - 48)) cs else none

/-- A non-empty run of decimal digits as a number. -/
def decDigits : List Char → Option Nat
  | [] => none
  | l => decDigitsAux 0 l

/-- An optionally signed decimal integer. -/
def parseSignedDecimal : List Char → Option Int
  | '-' :: rest => (decDigits rest).map fun n => -(n : Int)
  | '+' :: rest => (decDigits rest).map fun n => (n : Int)
  | l => (decDigits l).map fun n => (n : Int)

/-- Python `int(s)` on a decimal literal (surrounding whitespace ignored),
as used for the numeric settings. -/
def pyInt (s : String) : Except String Int :=
  match parseSignedDecimal (pyStrip s).toList with
  | some n => .ok n
  | none => .error ("invalid literal for int() with base 10: " ++ s)

/-- Whether an `Except` value is a success (the call did not raise). -/
def exceptOk {ε α : Type} : Except ε α → Bool
  | .ok _ => true
  | .error _ => false

/-! ## JSON model (for the Threads Graph API response bodies) -/

/-- A minimal JSON value: enough to model the bodies the code inspects
(`id`, `status`, `error.message`, `display_name`, `username`). -/
inductive JsonVal where
  | str (s : String)
  | obj (fields : List (String × JsonVal))
  | jnull

/-- Python `dict.get(key)`: `None` on a non-dict or a missing key. -/
def JsonVal.get : JsonVal → String → Option JsonVal
  | .obj fields, key => fields.lookup key
  | _, _ => none

/-- Python truthiness of a JSON value. -/
def JsonVal.truthy : JsonVal → Bool
  | .str s => s ≠ ""
  | .obj fields => !fields.isEmpty
  | .jnull => false

/-- Python string interpolation of a JSON value, up to formatting of
non-string values (the code only ever interpolates strings in practice). -/
def JsonVal.render : JsonVal → String
  | .str s => s
  | .obj _ => "object"
  | .jnull => "None"

/-! ## oci_storage.py -/

/-- Model of `ObjectRef`: a stored object identified by bucket + key. -/
structure ObjectRef where
  bucket : String
  key : String
deriving DecidableEq

/-- The `ObjectRef.uri` property. -/
def ObjectRef.uri (o : ObjectRef) : String :=
  "oci://" ++ o.bucket ++ "/" ++ o.key

/-- Model of `PreauthenticatedRequest`: bucket, provider-assigned id, resulting URL. -/
structure PreauthenticatedRequest where
  bucket : String
  id : String
  url : String
deriving DecidableEq

/-- Model of `CreatePreauthenticatedRequestDetails` as populated by
`generate_presigned_url` (time modelled as integer seconds). -/
structure CreatePreauthenticatedRequestDetails where
  name : String
  access_type : String
  time_expires : Int
  object_name : String

/-- The details record built by `generate_presigned_url` (oci_storage.py
lines 131-137): expiry is `now + timedelta(seconds=max(expires_in_seconds, 1))`,
the name is derived from the current timestamp, access is read-only and
scoped to the single object. -/
def generate_presigned_url_details (now : Int) (stamp : String) (obj : ObjectRef)
    (expires_in_seconds : Int) : CreatePreauthenticatedRequestDetails :=
  { name := "temp-par-" ++ stamp
    access_type := "ObjectRead"
    time_expires := now + max expires_in_seconds 1
    object_name := obj.key }

/-- Model of `choose_random_object` (oci_storage.py lines 177-180).  `random.choice`
picks an index below the length; the index source is the `pick` parameter. -/
def choose_random_object (pick : Nat) (objects : List ObjectRef) : Except String ObjectRef :=
  if h : objects.length = 0 then
    .error "No PNG files found in the specified OCI bucket"
  else
    .ok (objects.get ⟨pick % objects.length, Nat.mod_lt _ (Nat.pos_of_ne_zero h)⟩)

/-! ## threads_api.py -/

/-- An HTTP response from the Threads Graph API: status code, parsed JSON
body (`none` when the body is not valid JSON), raw text. -/
structure HttpResponse where
  status_code : Nat
  jsonBody : Option JsonVal
  text : String

/-- Model of `_handle_response` (threads_api.py lines 17-27): parse failure raises;
status ≥ 400 raises with the nested `error.message` (falling back to the raw
text); otherwise the parsed body is returned. -/
def _handle_response (response : HttpResponse) : Except String JsonVal :=
  match response.jsonBody with
  | none => .error "Failed to parse Threads API response as JSON"
  | some data =>
    if response.status_code ≥ 400 then
      let message :=
        match data.get "error" with
        | some e =>
          match e.get "message" with
          | some m => m.render
          | none => response.text
        | none => response.text
      .error ("Threads API error (" ++ toString response.status_code ++ "): " ++ message)
    else
      .ok data

/-- Model of `create_media_container` (threads_api.py lines 30-52).  The HTTP exchange
itself is the `response` argument; a missing or falsy `id` field raises. -/
def create_media_container (access_token user_id image_url caption : String)
    (response : HttpResponse) : Except String JsonVal :=
  match _handle_response response with
  | .error e => .error e
  | .ok data =>
    match data.get "id" with
    | some container_id =>
      if container_id.truthy then .ok container_id
      else .error "Threads API response did not include a container ID"
    | none => .error "Threads API response did not include a container ID"

/-- Model of `publish_container` (threads_api.py lines 55-74): same shape as container
creation, with the thread id in place of the container id. -/
def publish_container (access_token user_id : String)
    (response : HttpResponse) : Except String JsonVal :=
  match _handle_response response with
  | .error e => .error e
  | .ok data =>
    match data.get "id" with
    | some thread_id =>
      if thread_id.truthy then .ok thread_id
      else .error "Threads API response did not include a thread ID"
    | none => .error "Threads API response did not include a thread ID"

/-- Model of `check_container_status` (threads_api.py lines 77-92): returns the
optional `status` field; its absence is not an error. -/
def check_container_status (response : HttpResponse) : Except String (Option JsonVal) :=
  match _handle_response response with
  | .error e => .error e
  | .ok data => .ok (data.get "status")

/-- Model of `get_profile_details` (threads_api.py lines 95-108): returns the parsed
body. -/
def get_profile_details (response : HttpResponse) : Except String JsonVal :=
  _handle_response response

/-! ## claude_caption.py -/

/-- A content block of the model response; `type` and `text` mirror
`getattr(block, "type", None)` / `getattr(block, "text", "")`. -/
structure ContentBlock where
  type : String
  text : String
deriving DecidableEq

/-- The view of `Settings` that the captioner needs (the `ClaudeConfig`
protocol); the captioner is called with the full settings record. -/
structure Settings where
  threads_access_token : String
  threads_user_id : String
  bucket : String
  object_prefix : Option String
  media_wait_seconds : Int
  presign_expiration_seconds : Int
  anthropic_api_key : String
  claude_model : String
  claude_max_tokens : Int
  caption_fallback : String
  enable_captioning : Bool
  telegram_bot_token : Option String
  telegram_chat_id : Option String
  oci_namespace : String
  oci_region : Option String
  oci_profile : Option String

/-- The caption assembled from the response content (claude_caption.py
lines 76-87): keep blocks typed `text` with non-blank text, strip each,
join with single spaces, strip the result. -/
def caption_from_content (content : List ContentBlock) : String :=
  let caption_parts :=
    (content.filter fun block => block.type == "text" && pyStrip block.text ≠ "").map
      fun block => pyStrip block.text
  pyStrip (String.intercalate " " caption_parts)

/-- Model of `generate_caption` (claude_caption.py lines 45-87).  The image download
outcome (`_download_image_bytes`, already wrapped as a ClaudeCaptionError
message on failure) and the model call outcome are supplied as arguments;
when the assembled caption is empty the configured fallback is returned. -/
def generate_caption (config : Settings)
    (download : Except String Unit)
    (model_response : Except String (List ContentBlock)) : Except String String :=
  match download with
  | .error e => .error e
  | .ok _ =>
    match model_response with
    | .error _ => .error "Claude API call failed"
    | .ok content =>
      let caption := caption_from_content content
      if caption = "" then .ok config.caption_fallback
      else .ok caption

/-! ## config.py -/

/-- The process environment: a partial map from variable names to values. -/
def EnvMap : Type := String → Option String

/-- Model of `_get_bool` (config.py lines 16-25): absent value yields the default, a
present value is stripped and lowercased and must match one of the fixed
truthy/falsy token sets. -/
def _get_bool (env : EnvMap) (name : String) (default : Bool) : Except String Bool :=
  match env name with
  | none => .ok default
  | some raw =>
    let value := pyLower (pyStrip raw)
    if value ∈ ["1", "true", "yes", "on"] then .ok true
    else if value ∈ ["0", "false", "no", "off"] then .ok false
    else .error ("Invalid boolean value for " ++ name ++ ": " ++ value)

/-- Model of `_get_env` (config.py lines 48-52): a required variable that is absent
or empty raises naming the variable.  (The optional `default` parameter of
the source is never passed by `load_settings`, so it is omitted here.) -/
def _get_env (env : EnvMap) (name : String) : Except String String :=
  match env name with
  | none => .error ("Missing required environment variable: " ++ name)
  | some value =>
    if value = "" then .error ("Missing required environment variable: " ++ name)
    else .ok value

/-- The stripped Anthropic key: `anthropic_key.strip() if anthropic_key else ""`. -/
def anthropic_key_of (env : EnvMap) : String :=
  match env "ANTHROPIC_API_KEY" with
  | some k => if k = "" then "" else pyStrip k
  | none => ""

/-- Model of `load_settings` (config.py lines 55-89), with binds in the evaluation
order of the source (numeric parses, boolean, captioning/key check, bucket,
then the `Settings(...)` constructor arguments left to right). -/
def load_settings (env : EnvMap) : Except String Settings := do
  let wait_seconds ← pyInt ((env "THREADS_MEDIA_WAIT_SECONDS").getD "30")
  let presign_expiration_seconds ← pyInt ((env "THREADS_PRESIGN_EXPIRATION_SECONDS").getD "900")
  let claude_max_tokens ← pyInt ((env "THREADS_CLAUDE_MAX_TOKENS").getD "120")
  let caption_fallback := (env "THREADS_CAPTION_FALLBACK").getD
    "Sharing today\u0027s inspiration \u00e2\u0153\u00a8"
  let enable_captioning ← _get_bool env "THREADS_ENABLE_CAPTIONING" true
  let anthropic_key := anthropic_key_of env
  if enable_captioning && anthropic_key = "" then
    .error "ANTHROPIC_API_KEY must be set when THREADS_ENABLE_CAPTIONING is true"
  else do
    let bucket ← _get_env env "THREADS_BUCKET"
    let object_prefix := match env "THREADS_PREFIX" with
      | some p => if p = "" then none else some p
      | none => none
    let threads_access_token ← _get_env env "THREADS_ACCESS_TOKEN"
    let threads_user_id ← _get_env env "THREADS_USER_ID"
    let oci_namespace ← _get_env env "OCI_NAMESPACE"
    pure
      { threads_access_token := threads_access_token
        threads_user_id := threads_user_id
        bucket := bucket
        object_prefix := object_prefix
        media_wait_seconds := wait_seconds
        presign_expiration_seconds := presign_expiration_seconds
        anthropic_api_key := anthropic_key
        claude_model := (env "THREADS_CLAUDE_MODEL").getD "claude-sonnet-4-5-20250929"
        claude_max_tokens := claude_max_tokens
        caption_fallback := caption_fallback
        enable_captioning := enable_captioning
        telegram_bot_token := match env "TELEGRAM_BOT_TOKEN" with
          | some t => if t = "" then none else some t
          | none => none
        telegram_chat_id := match env "TELEGRAM_CHAT_ID" with
          | some c => if c = "" then none else some c
          | none => none
        oci_namespace := oci_namespace
        oci_region := match env "OCI_REGION" with
          | some r => if r = "" then none else some r
          | none => none
        oci_profile := match env "OCI_PROFILE" with
          | some p => if p = "" then none else some p
          | none => none }

/-! ## main.py -/

/-- Model of `_format_threads_label` (main.py lines 27-38), using Python truthiness on
the optional profile dict and its fields. -/
def _format_threads_label (details : Option JsonVal) (user_id : String) : String :=
  let display_name : Option JsonVal :=
    match details with
    | some d => if d.truthy then d.get "display_name" else none
    | none => none
  let username : Option JsonVal :=
    match details with
    | some d => if d.truthy then d.get "username" else none
    | none => none
  let handle : Option String :=
    match username with
    | some u => if u.truthy then some ("@" ++ u.render) else none
    | none => none
  let dn : Option String :=
    match display_name with
    | some v => if v.truthy then some v.render else none
    | none => none
  match dn, handle with
  | some d, some h => d ++ " (" ++ h ++ ")"
  | some d, none => d
  | none, some h => h
  | none, none => user_id

/-- The external calls `main` performs, in order, each with its outcome.
`telegramSend` carries the composed notification text; `sleep` the wait. -/
inductive Event where
  | getProfile (ok : Bool)
  | storageInit (ok : Bool)
  | listObjects (ok : Bool)
  | parCreate (ok : Bool)
  | parRevoke (ok : Bool)
  | captionCall (ok : Bool)
  | createContainer (caption : String) (ok : Bool)
  | sleep (seconds : Int)
  | checkStatus (ok : Bool)
  | publish (ok : Bool)
  | deleteObject (ok : Bool)
  | telegramSend (message : String)
deriving DecidableEq

/-- The outcomes of every external interaction `main` can perform, plus the
process environment.  `pick` feeds `random.choice`; the three Threads calls
are given as HTTP responses; SDK-level calls as their wrapped outcomes. -/
structure Env where
  sysEnv : EnvMap
  profileResp : HttpResponse
  storageInit : Except String Unit
  listResult : Except String (List ObjectRef)
  pick : Nat
  parResult : Except String PreauthenticatedRequest
  captionDownload : Except String Unit
  claudeResult : Except String (List ContentBlock)
  createResp : HttpResponse
  statusResp : HttpResponse
  publishResp : HttpResponse
  deleteResult : Except String Unit
  revokeResult : Except String Unit

/-- Model of `_send_telegram_message` guarded by `if telegram_bot_token and
telegram_chat_id:` — a send event when both credentials are truthy. -/
def telegramEvents (bot_token chat_id : Option String) (message : String) : List Event :=
  if pyTruthyOpt bot_token && pyTruthyOpt chat_id then [Event.telegramSend message]
  else []

/-- Model of `finish` (main.py lines 114-147): revoke the outstanding link if one
exists (best-effort, outcome logged only), compose the summary, send the
notification, and return the result code unchanged. -/
def finish (storage_present : Bool) (par_request : Option PreauthenticatedRequest)
    (revokeResult : Except String Unit)
    (telegram_bot_token telegram_chat_id : Option String)
    (account_label : String) (selected_object : Option ObjectRef)
    (thread_id : Option JsonVal) (last_error : Option String)
    (error : Option String) (result_code : Int) : Int × List Event :=
  let revoke_events :=
    if par_request.isSome && storage_present then [Event.parRevoke (exceptOk revokeResult)]
    else []
  let final_error := pyOrOpt error last_error
  let heading := if result_code = 0 then "\u2705 Threads post published"
    else "\u274c Threads poster failed"
  let lines := [heading, "Threads Account: " ++ account_label]
  let lines := lines ++ (match selected_object with
    | some o => ["Object Key: " ++ o.key]
    | none => [])
  let lines := lines ++ (match thread_id with
    | some t => if t.truthy then ["Thread ID: " ++ t.render] else []
    | none => [])
  let lines := lines ++ (match final_error with
    | some e => if e = "" then [] else ["Error: " ++ e]
    | none => [])
  let message_events := telegramEvents telegram_bot_token telegram_chat_id
    (String.intercalate "\n" lines)
  (result_code, revoke_events ++ message_events)

/-- The captioning step of `main` (main.py lines 179-189): when enabled, a
captioning failure degrades to the empty caption rather than aborting. -/
def captionStep (env : Env) (settings : Settings) : String × List Event :=
  if settings.enable_captioning then
    match generate_caption settings env.captionDownload env.claudeResult with
    | .ok c => (c, [Event.captionCall true])
    | .error _ => ("", [Event.captionCall false])
  else ("", [])

/-- The tail of `main` once the pre-authenticated link exists (main.py lines
179-246): caption, create container, clamped wait, best-effort status check,
publish, best-effort delete, then the terminal `finish` funnel. -/
def afterPar (env : Env) (settings : Settings)
    (telegram_bot_token telegram_chat_id : Option String) (account_label : String)
    (selected_object : ObjectRef) (par_request : PreauthenticatedRequest) : Int × List Event :=
  let presigned_url := par_request.url
  let cap := captionStep env settings
  let caption_payload := pyOrStr cap.1 ""
  match create_media_container settings.threads_access_token settings.threads_user_id
      presigned_url caption_payload env.createResp with
  | .error exc =>
    let f := finish true (some par_request) env.revokeResult telegram_bot_token
      telegram_chat_id account_label (some selected_object) none (some exc) (some exc) 1
    (f.1, cap.2 ++ [Event.createContainer caption_payload false] ++ f.2)
  | .ok _container_id =>
    let wait_seconds : Int := max settings.media_wait_seconds 0
    let sleep_events := if wait_seconds = 0 then [] else [Event.sleep wait_seconds]
    let status_outcome := check_container_status env.statusResp
    let pre := cap.2 ++ [Event.createContainer caption_payload true] ++ sleep_events
      ++ [Event.checkStatus (exceptOk status_outcome)]
    match publish_container settings.threads_access_token settings.threads_user_id
        env.publishResp with
    | .error exc =>
      let f := finish true (some par_request) env.revokeResult telegram_bot_token
        telegram_chat_id account_label (some selected_object) none (some exc) (some exc) 1
      (f.1, pre ++ [Event.publish false] ++ f.2)
    | .ok thread_id =>
      let f := finish true (some par_request) env.revokeResult telegram_bot_token
        telegram_chat_id account_label (some selected_object) (some thread_id) none none 0
      (f.1, pre ++ [Event.publish true, Event.deleteObject (exceptOk env.deleteResult)] ++ f.2)

/-- Model of `main` (main.py lines 65-246): the full orchestration sequence.  Returns
the process exit code and the ordered trace of external calls. -/
def main (env : Env) : Int × List Event :=
  let telegram_bot_token0 := env.sysEnv "TELEGRAM_BOT_TOKEN"
  let telegram_chat_id0 := env.sysEnv "TELEGRAM_CHAT_ID"
  match load_settings env.sysEnv with
  | .error exc =>
    (1, telegramEvents telegram_bot_token0 telegram_chat_id0
      (String.intercalate "\n" ["\u274c Threads poster failed", "Error: " ++ exc]))
  | .ok settings =>
    let telegram_bot_token := pyOrOpt settings.telegram_bot_token telegram_bot_token0
    let telegram_chat_id := pyOrOpt settings.telegram_chat_id telegram_chat_id0
    let profile_outcome := get_profile_details env.profileResp
    let profile_details : Option JsonVal :=
      match profile_outcome with
      | .ok d => some d
      | .error _ => none
    let ev0 := [Event.getProfile (exceptOk profile_outcome)]
    let account_label := _format_threads_label profile_details settings.threads_user_id
    match env.storageInit with
    | .error exc =>
      let f := finish false none env.revokeResult telegram_bot_token telegram_chat_id
        account_label none none (some exc) (some exc) 1
      (f.1, ev0 ++ [Event.storageInit false] ++ f.2)
    | .ok _ =>
      let ev1 := ev0 ++ [Event.storageInit true]
      match env.listResult with
      | .error exc =>
        let f := finish true none env.revokeResult telegram_bot_token telegram_chat_id
          account_label none none (some exc) (some exc) 1
        (f.1, ev1 ++ [Event.listObjects false] ++ f.2)
      | .ok objects =>
        let ev2 := ev1 ++ [Event.listObjects true]
        match choose_random_object env.pick objects with
        | .error exc =>
          let f := finish true none env.revokeResult telegram_bot_token telegram_chat_id
            account_label none none (some exc) (some exc) 1
          (f.1, ev2 ++ f.2)
        | .ok selected_object =>
          match env.parResult with
          | .error exc =>
            let f := finish true none env.revokeResult telegram_bot_token telegram_chat_id
              account_label (some selected_object) none (some exc) (some exc) 1
            (f.1, ev2 ++ [Event.parCreate false] ++ f.2)
          | .ok par_request =>
            let a := afterPar env settings telegram_bot_token telegram_chat_id
              account_label selected_object par_request
            (a.1, ev2 ++ [Event.parCreate true] ++ a.2)

/-! ## Event predicates used by the invariants -/

/-- A successful creation of a pre-authenticated link. -/
def isParCreated : Event → Bool
  | .parCreate true => true
  | _ => false

/-- A revocation attempt for a pre-authenticated link (either outcome). -/
def isParRevokeAttempt : Event → Bool
  | .parRevoke _ => true
  | _ => false

/-- Any sleep. -/
def isSleepEvent : Event → Bool
  | .sleep _ => true
  | _ => false

/-- A sleep with a non-positive duration (must never occur). -/
def isNonPositiveSleep : Event → Bool
  | .sleep d => decide (d ≤ 0)
  | _ => false

/-- A call to one of the external services (storage, Threads, the model);
notification sends and sleeps are not service calls. -/
def isServiceCall : Event → Bool
  | .telegramSend _ => false
  | .sleep _ => false
  | _ => true

/-! ## Concrete inputs used by the witnesses -/

/-- An environment map from an association list. -/
def envMapOf (pairs : List (String × String)) : EnvMap :=
  fun name => pairs.lookup name

/-- A 200 response whose body carries an id. -/
def respOkWithId : HttpResponse :=
  { status_code := 200, jsonBody := some (.obj [("id", .str "123")]), text := "ok" }

/-- A 200 response whose body carries a status. -/
def respOkStatus : HttpResponse :=
  { status_code := 200, jsonBody := some (.obj [("status", .str "FINISHED")]), text := "ok" }

/-- A 200 response with an empty JSON object body. -/
def respEmptyObj : HttpResponse :=
  { status_code := 200, jsonBody := some (.obj []), text := "ok" }

/-- A sample stored object. -/
def objW : ObjectRef := { bucket := "b", key := "a.png" }

/-- A sample pre-authenticated link. -/
def parW : PreauthenticatedRequest :=
  { bucket := "b", id := "parid", url := "https://objectstorage.example/p/x/a.png" }

/-- Environment variables for a run with captioning enabled. -/
def pairsCaptionOn : List (String × String) :=
  [("THREADS_BUCKET", "b"), ("THREADS_ACCESS_TOKEN", "tok"),
   ("THREADS_USER_ID", "uid"), ("OCI_NAMESPACE", "ns"),
   ("ANTHROPIC_API_KEY", "key")]

/-- Environment variables for a run with captioning disabled. -/
def pairsCaptionOff : List (String × String) :=
  [("THREADS_BUCKET", "b"), ("THREADS_ACCESS_TOKEN", "tok"),
   ("THREADS_USER_ID", "uid"), ("OCI_NAMESPACE", "ns"),
   ("THREADS_ENABLE_CAPTIONING", "false")]

/-- Environment variables with captioning disabled and a negative media wait. -/
def pairsNegativeWait : List (String × String) :=
  [("THREADS_BUCKET", "b"), ("THREADS_ACCESS_TOKEN", "tok"),
   ("THREADS_USER_ID", "uid"), ("OCI_NAMESPACE", "ns"),
   ("THREADS_ENABLE_CAPTIONING", "false"),
   ("THREADS_MEDIA_WAIT_SECONDS", "-5")]

/-- Environment variables missing the required `THREADS_BUCKET`. -/
def pairsMissingBucket : List (String × String) :=
  [("THREADS_ACCESS_TOKEN", "tok"), ("THREADS_USER_ID", "uid"),
   ("OCI_NAMESPACE", "ns"), ("THREADS_ENABLE_CAPTIONING", "off")]

/-- The settings produced from `pairsCaptionOn`. -/
def settingsCaptionOn : Settings :=
  { threads_access_token := "tok", threads_user_id := "uid", bucket := "b",
    object_prefix := none, media_wait_seconds := 30,
    presign_expiration_seconds := 900, anthropic_api_key := "key",
    claude_model := "claude-sonnet-4-5-20250929", claude_max_tokens := 120,
    caption_fallback := "Sharing today\u0027s inspiration \u00e2\u0153\u00a8",
    enable_captioning := true, telegram_bot_token := none,
    telegram_chat_id := none, oci_namespace := "ns", oci_region := none,
    oci_profile := none }

/-- The settings produced from `pairsCaptionOff`. -/
def settingsCaptionOff : Settings :=
  { settingsCaptionOn with enable_captioning := false, anthropic_api_key := "" }

/-- The settings produced from `pairsNegativeWait`. -/
def settingsNegativeWait : Settings :=
  { settingsCaptionOff with media_wait_seconds := -5 }

/-- A run where every external call succeeds but caption generation fails
on the image download. -/
def envCaptionFails : Env :=
  { sysEnv := envMapOf pairsCaptionOn, profileResp := respEmptyObj,
    storageInit := .ok (), listResult := .ok [objW], pick := 0,
    parResult := .ok parW,
    captionDownload := .error "Failed to download image for captioning: boom",
    claudeResult := .ok [], createResp := respOkWithId,
    statusResp := respOkStatus, publishResp := respOkWithId,
    deleteResult := .ok (), revokeResult := .ok () }

/-- A run with captioning disabled where object deletion fails after a
successful publish. -/
def envDeleteFails : Env :=
  { envCaptionFails with
    sysEnv := envMapOf pairsCaptionOff
    captionDownload := .ok ()
    deleteResult := .error "delete failed" }

/-- A run with a negative configured media wait. -/
def envNegativeWait : Env :=
  { envDeleteFails with
    sysEnv := envMapOf pairsNegativeWait
    deleteResult := .ok () }

/-- A run whose environment is missing the required bucket variable. -/
def envMissingBucket : Env :=
  { envCaptionFails with sysEnv := envMapOf pairsMissingBucket }

/-- The unconditionally required environment variables of `load_settings`
(checked through `_get_env`, in this order within the source). -/
def requiredNames : List String :=
  ["THREADS_BUCKET", "THREADS_ACCESS_TOKEN", "THREADS_USER_ID", "OCI_NAMESPACE"]

/-- A variable that is absent from the environment or set to the empty
string. -/
def missingOrEmpty (envm : EnvMap) (name : String) : Prop :=
  envm name = none ∨ envm name = some ""

/-! ## Helper lemmas about the trace -/

theorem finish_fst (sp : Bool) (par : Option PreauthenticatedRequest)
    (rr : Except String Unit) (tb tc : Option String) (al : String)
    (so : Option ObjectRef) (tid : Option JsonVal) (le er : Option String)
    (rc : Int) : (finish sp par rr tb tc al so tid le er rc).1 = rc := rfl

theorem telegramEvents_countP (p : Event → Bool)
    (h : ∀ m, p (.telegramSend m) = false) (bot chat : Option String)
    (msg : String) : (telegramEvents bot chat msg).countP p = 0 := by
  unfold telegramEvents
  split <;> simp [List.countP_cons, h]

theorem finish_countP (p : Event → Bool)
    (hrev : ∀ b, p (.parRevoke b) = false)
    (htel : ∀ m, p (.telegramSend m) = false)
    (sp : Bool) (par : Option PreauthenticatedRequest) (rr : Except String Unit)
    (tb tc : Option String) (al : String) (so : Option ObjectRef)
    (tid : Option JsonVal) (le er : Option String) (rc : Int) :
    (finish sp par rr tb tc al so tid le er rc).2.countP p = 0 := by
  unfold finish
  simp only []
  rw [List.countP_append]
  rw [telegramEvents_countP p htel]
  split <;> simp [List.countP_cons, hrev]

theorem finish_countP_revoke (sp : Bool) (par : Option PreauthenticatedRequest)
    (rr : Except String Unit) (tb tc : Option String) (al : String)
    (so : Option ObjectRef) (tid : Option JsonVal) (le er : Option String)
    (rc : Int) :
    (finish sp par rr tb tc al so tid le er rc).2.countP isParRevokeAttempt =
      if par.isSome && sp then 1 else 0 := by
  unfold finish
  simp only []
  rw [List.countP_append]
  rw [telegramEvents_countP isParRevokeAttempt (fun m => rfl)]
  split <;> simp_all [List.countP_cons, isParRevokeAttempt]

theorem captionStep_countP (p : Event → Bool)
    (h : ∀ b, p (.captionCall b) = false) (env : Env) (settings : Settings) :
    (captionStep env settings).2.countP p = 0 := by
  unfold captionStep
  split
  · rcases generate_caption settings env.captionDownload env.claudeResult with e | c <;>
      simp [List.countP_cons, h]
  · simp

theorem countP_sleepOpt (p : Event → Bool) (c : Prop) [Decidable c] (d : Int)
    (h : p (.sleep d) = false) :
    ((if c then [] else [Event.sleep d]) : List Event).countP p = 0 := by
  split <;> simp [List.countP_cons, h]

theorem afterPar_countP (p : Event → Bool)
    (hcapc : ∀ b, p (.captionCall b) = false)
    (hcc : ∀ s b, p (.createContainer s b) = false)
    (hsl : ∀ d, p (.sleep d) = false)
    (hcs : ∀ b, p (.checkStatus b) = false)
    (hpub : ∀ b, p (.publish b) = false)
    (hdel : ∀ b, p (.deleteObject b) = false)
    (hrev : ∀ b, p (.parRevoke b) = false)
    (htel : ∀ m, p (.telegramSend m) = false)
    (env : Env) (settings : Settings) (tb tc : Option String) (al : String)
    (so : ObjectRef) (par : PreauthenticatedRequest) :
    (afterPar env settings tb tc al so par).2.countP p = 0 := by
  have hcap := captionStep_countP p hcapc env settings
  have hfin := finish_countP p hrev htel
  unfold afterPar
  rcases hc : create_media_container settings.threads_access_token settings.threads_user_id
      par.url (pyOrStr (captionStep env settings).1 "") env.createResp with e | cid
  · simp [hc, List.countP_append, List.countP_cons, hcap, hfin, hcc]
  · rcases hp : publish_container settings.threads_access_token settings.threads_user_id
        env.publishResp with e | tid <;>
      simp [hc, hp, List.countP_append, List.countP_cons, hcap, hfin, hcc, hcs, hpub,
        hdel, countP_sleepOpt p _ _ (hsl _)]

theorem afterPar_countP_revoke (env : Env) (settings : Settings)
    (tb tc : Option String) (al : String) (so : ObjectRef)
    (par : PreauthenticatedRequest) :
    (afterPar env settings tb tc al so par).2.countP isParRevokeAttempt = 1 := by
  have hcap := captionStep_countP isParRevokeAttempt (fun b => rfl) env settings
  unfold afterPar
  rcases hc : create_media_container settings.threads_access_token settings.threads_user_id
      par.url (pyOrStr (captionStep env settings).1 "") env.createResp with e | cid
  · simp [hc, List.countP_append, List.countP_cons, hcap, finish_countP_revoke,
      isParRevokeAttempt]
  · rcases hp : publish_container settings.threads_access_token settings.threads_user_id
        env.publishResp with e | tid <;>
      simp [hc, hp, List.countP_append, List.countP_cons, hcap, finish_countP_revoke,
        isParRevokeAttempt, countP_sleepOpt isParRevokeAttempt _ _ rfl]

theorem afterPar_countP_badSleep (env : Env) (settings : Settings)
    (tb tc : Option String) (al : String) (so : ObjectRef)
    (par : PreauthenticatedRequest) :
    (afterPar env settings tb tc al so par).2.countP isNonPositiveSleep = 0 := by
  have hcap := captionStep_countP isNonPositiveSleep (fun b => rfl) env settings
  have hfin := finish_countP isNonPositiveSleep (fun b => rfl) (fun m => rfl)
  unfold afterPar
  rcases hc : create_media_container settings.threads_access_token settings.threads_user_id
      par.url (pyOrStr (captionStep env settings).1 "") env.createResp with e | cid
  · simp [hc, List.countP_append, List.countP_cons, hcap, hfin, isNonPositiveSleep]
  · have hsleep : ((if max settings.media_wait_seconds 0 = 0 then []
        else [Event.sleep (max settings.media_wait_seconds 0)]) : List Event).countP
          isNonPositiveSleep = 0 := by
      split
      · simp
      · rename_i hne
        have hge : (0 : Int) ≤ max settings.media_wait_seconds 0 := le_max_right _ _
        have : ¬ (max settings.media_wait_seconds 0 ≤ 0) := by omega
        simp [List.countP_cons, isNonPositiveSleep, this]
    rcases hp : publish_container settings.threads_access_token settings.threads_user_id
        env.publishResp with e | tid <;>
      simp [hc, hp, List.countP_append, List.countP_cons, hcap, hfin, isNonPositiveSleep,
        hsleep]

theorem afterPar_countP_sleep_of_nonpos (env : Env) (settings : Settings)
    (tb tc : Option String) (al : String) (so : ObjectRef)
    (par : PreauthenticatedRequest)
    (hw : settings.media_wait_seconds ≤ 0) :
    (afterPar env settings tb tc al so par).2.countP isSleepEvent = 0 := by
  have hcap := captionStep_countP isSleepEvent (fun b => rfl) env settings
  have hfin := finish_countP isSleepEvent (fun b => rfl) (fun m => rfl)
  have hmax : max settings.media_wait_seconds 0 = 0 := by omega
  unfold afterPar
  rcases hc : create_media_container settings.threads_access_token settings.threads_user_id
      par.url (pyOrStr (captionStep env settings).1 "") env.createResp with e | cid
  · simp [hc, List.countP_append, List.countP_cons, hcap, hfin, isSleepEvent]
  · rcases hp : publish_container settings.threads_access_token settings.threads_user_id
        env.publishResp with e | tid <;>
      simp [hc, hp, hmax, List.countP_append, List.countP_cons, hcap, hfin, isSleepEvent]

theorem afterPar_fst (env : Env) (settings : Settings)
    (tb tc : Option String) (al : String) (so : ObjectRef)
    (par : PreauthenticatedRequest) :
    (afterPar env settings tb tc al so par).1 =
      if exceptOk (create_media_container settings.threads_access_token
            settings.threads_user_id par.url (pyOrStr (captionStep env settings).1 "")
            env.createResp)
          && exceptOk (publish_container settings.threads_access_token
            settings.threads_user_id env.publishResp) then 0 else 1 := by
  unfold afterPar
  rcases hc : create_media_container settings.threads_access_token settings.threads_user_id
      par.url (pyOrStr (captionStep env settings).1 "") env.createResp with e | cid
  · simp [hc, exceptOk, finish_fst]
  · rcases hp : publish_container settings.threads_access_token settings.threads_user_id
        env.publishResp with e | tid <;>
      simp [hc, hp, exceptOk, finish_fst]

theorem captionStep_eq (envA envB : Env) (settings : Settings)
    (h1 : envA.captionDownload = envB.captionDownload)
    (h2 : envA.claudeResult = envB.claudeResult) :
    captionStep envA settings = captionStep envB settings := by
  unfold captionStep
  rw [h1, h2]

theorem main_countP_created (env : Env) :
    (main env).2.countP isParCreated ≤ 1 := by
  have htel := telegramEvents_countP isParCreated (fun m => rfl)
  have hfin := finish_countP isParCreated (fun b => rfl) (fun m => rfl)
  have hap := afterPar_countP isParCreated (fun b => rfl) (fun s b => rfl) (fun d => rfl)
    (fun b => rfl) (fun b => rfl) (fun b => rfl) (fun b => rfl) (fun m => rfl) env
  unfold main
  rcases hls : load_settings env.sysEnv with exc | settings
  · simp [htel]
  · rcases hsi : env.storageInit with e | u
    · simp [List.countP_append, List.countP_cons, hfin, isParCreated]
    · rcases hlr : env.listResult with e | objects
      · simp [List.countP_append, List.countP_cons, hfin, isParCreated]
      · rcases hco : choose_random_object env.pick objects with e | sel
        · simp [hco, List.countP_append, List.countP_cons, hfin, isParCreated]
        · rcases hpr : env.parResult with e | par
          · simp [hco, List.countP_append, List.countP_cons, hfin, isParCreated]
          · simp [hco, List.countP_append, List.countP_cons, hap, isParCreated]

theorem main_countP_revoke_eq (env : Env) :
    (main env).2.countP isParRevokeAttempt = (main env).2.countP isParCreated := by
  have htelR := telegramEvents_countP isParRevokeAttempt (fun m => rfl)
  have htelC := telegramEvents_countP isParCreated (fun m => rfl)
  have hfinC := finish_countP isParCreated (fun b => rfl) (fun m => rfl)
  have hapC := afterPar_countP isParCreated (fun b => rfl) (fun s b => rfl) (fun d => rfl)
    (fun b => rfl) (fun b => rfl) (fun b => rfl) (fun b => rfl) (fun m => rfl) env
  have hapR := afterPar_countP_revoke env
  unfold main
  rcases hls : load_settings env.sysEnv with exc | settings
  · simp [htelR, htelC]
  · rcases hsi : env.storageInit with e | u
    · simp [List.countP_append, List.countP_cons, hfinC, finish_countP_revoke,
        isParCreated, isParRevokeAttempt]
    · rcases hlr : env.listResult with e | objects
      · simp [List.countP_append, List.countP_cons, hfinC, finish_countP_revoke,
          isParCreated, isParRevokeAttempt]
      · rcases hco : choose_random_object env.pick objects with e | sel
        · simp [hco, List.countP_append, List.countP_cons, hfinC, finish_countP_revoke,
            isParCreated, isParRevokeAttempt]
        · rcases hpr : env.parResult with e | par
          · simp [hco, List.countP_append, List.countP_cons, hfinC, finish_countP_revoke,
              isParCreated, isParRevokeAttempt]
          · simp [hco, List.countP_append, List.countP_cons, hapC, hapR,
              isParCreated, isParRevokeAttempt]

theorem main_fst_congr (envA envB : Env)
    (hsys : envA.sysEnv = envB.sysEnv)
    (hstore : envA.storageInit = envB.storageInit)
    (hlist : envA.listResult = envB.listResult)
    (hpick : envA.pick = envB.pick)
    (hparr : envA.parResult = envB.parResult)
    (hcapd : envA.captionDownload = envB.captionDownload)
    (hclau : envA.claudeResult = envB.claudeResult)
    (hcre : envA.createResp = envB.createResp)
    (hpub : envA.publishResp = envB.publishResp) :
    (main envA).1 = (main envB).1 := by
  unfold main
  rw [hsys, hstore, hlist, hpick, hparr]
  rcases hls : load_settings envB.sysEnv with exc | settings
  · simp
  · rcases hsi : envB.storageInit with e | u
    · simp [finish_fst]
    · rcases hlr : envB.listResult with e | objects
      · simp [finish_fst]
      · rcases hco : choose_random_object envB.pick objects with e | sel
        · simp [hco, finish_fst]
        · rcases hpr : envB.parResult with e | par
          · simp [hco, finish_fst]
          · simp only [hco]
            rw [afterPar_fst, afterPar_fst, captionStep_eq envA envB settings hcapd hclau,
              hcre, hpub]

theorem main_fst_revoke_independent (env : Env) (r : Except String Unit) :
    (main {env with revokeResult := r}).1 = (main env).1 :=
  main_fst_congr _ env rfl rfl rfl rfl rfl rfl rfl rfl rfl

theorem main_countP_badSleep (env : Env) :
    (main env).2.countP isNonPositiveSleep = 0 := by
  have htel := telegramEvents_countP isNonPositiveSleep (fun m => rfl)
  have hfin := finish_countP isNonPositiveSleep (fun b => rfl) (fun m => rfl)
  have hap := afterPar_countP_badSleep env
  unfold main
  rcases hls : load_settings env.sysEnv with exc | settings
  · simp [htel]
  · rcases hsi : env.storageInit with e | u
    · simp [List.countP_append, List.countP_cons, hfin, isNonPositiveSleep]
    · rcases hlr : env.listResult with e | objects
      · simp [List.countP_append, List.countP_cons, hfin, isNonPositiveSleep]
      · rcases hco : choose_random_object env.pick objects with e | sel
        · simp [hco, List.countP_append, List.countP_cons, hfin, isNonPositiveSleep]
        · rcases hpr : env.parResult with e | par
          · simp [hco, List.countP_append, List.countP_cons, hfin, isNonPositiveSleep]
          · simp [hco, List.countP_append, List.countP_cons, hap, isNonPositiveSleep]

theorem main_countP_sleep_of_nonpos (env : Env) (settings : Settings)
    (hls : load_settings env.sysEnv = .ok settings)
    (hw : settings.media_wait_seconds ≤ 0) :
    (main env).2.countP isSleepEvent = 0 := by
  have hfin := finish_countP isSleepEvent (fun b => rfl) (fun m => rfl)
  unfold main
  rcases hsi : env.storageInit with e | u
  · simp [hls, List.countP_append, List.countP_cons, hfin, isSleepEvent]
  · rcases hlr : env.listResult with e | objects
    · simp [hls, List.countP_append, List.countP_cons, hfin, isSleepEvent]
    · rcases hco : choose_random_object env.pick objects with e | sel
      · simp [hls, hco, List.countP_append, List.countP_cons, hfin, isSleepEvent]
      · rcases hpr : env.parResult with e | par
        · simp [hls, hco, List.countP_append, List.countP_cons, hfin, isSleepEvent]
        · have hap := afterPar_countP_sleep_of_nonpos env settings
            (pyOrOpt settings.telegram_bot_token (env.sysEnv "TELEGRAM_BOT_TOKEN"))
            (pyOrOpt settings.telegram_chat_id (env.sysEnv "TELEGRAM_CHAT_ID"))
            (_format_threads_label
              (match get_profile_details env.profileResp with
                | .ok d => some d
                | .error _ => none) settings.threads_user_id)
            sel par hw
          simp [hls, hco, List.countP_append, List.countP_cons, hap, isSleepEvent]

/-! ## Claim theorems -/

/-- C1: On every execution path of the orchestrator, at most one
pre-authenticated link is created; the number of revocation attempts always
equals the number of links created (so a created link is revoked exactly
once, through the terminal `finish` funnel, and no revocation happens
without a creation); and the revocation outcome never changes the returned
result code. -/
theorem main_par_link_lifecycle (env : Env) :
    (main env).2.countP isParCreated ≤ 1
    ∧ (main env).2.countP isParRevokeAttempt = (main env).2.countP isParCreated
    ∧ ∀ r, (main {env with revokeResult := r}).1 = (main env).1 :=
  ⟨main_countP_created env, main_countP_revoke_eq env,
    fun r => main_fst_revoke_independent env r⟩

/-- C2: With captioning enabled, a caption-generation failure is non-fatal:
the run reaches container creation with the empty caption, and the final
exit code is 0 exactly when both container creation and publishing
succeed. -/
theorem main_caption_failure_nonfatal (env : Env) (settings : Settings)
    (hls : load_settings env.sysEnv = .ok settings)
    (hon : settings.enable_captioning = true)
    (e : String)
    (hfail : generate_caption settings env.captionDownload env.claudeResult = .error e)
    (hstore : env.storageInit = .ok ())
    (objects : List ObjectRef) (hlist : env.listResult = .ok objects)
    (hne : objects ≠ [])
    (p : PreauthenticatedRequest) (hpar : env.parResult = .ok p) :
    (∃ ok, Event.createContainer "" ok ∈ (main env).2)
    ∧ ((main env).1 = 0 ↔
        exceptOk (create_media_container settings.threads_access_token
          settings.threads_user_id p.url "" env.createResp) = true
        ∧ exceptOk (publish_container settings.threads_access_token
          settings.threads_user_id env.publishResp) = true) := by
  have hcs : captionStep env settings = ("", [Event.captionCall false]) := by
    unfold captionStep
    simp [hon, hfail]
  obtain ⟨sel, hsel⟩ : ∃ sel, choose_random_object env.pick objects = .ok sel := by
    have hlen : objects.length ≠ 0 := by
      simpa [List.length_eq_zero] using hne
    exact ⟨_, dif_neg hlen⟩
  constructor
  · unfold main
    simp only [hls, hstore, hlist, hsel, hpar]
    unfold afterPar
    rw [hcs]
    simp only [pyOrStr]
    rcases hc : create_media_container settings.threads_access_token
        settings.threads_user_id p.url "" env.createResp with e' | cid
    · exact ⟨false, by simp [hc]⟩
    · rcases hp : publish_container settings.threads_access_token
          settings.threads_user_id env.publishResp with e' | tid
      · exact ⟨true, by simp [hc, hp]⟩
      · exact ⟨true, by simp [hc, hp]⟩
  · unfold main
    simp only [hls, hstore, hlist, hsel, hpar]
    rw [afterPar_fst, hcs]
    simp only [pyOrStr, if_pos rfl]
    cases hx : exceptOk (create_media_container settings.threads_access_token
        settings.threads_user_id p.url "" env.createResp) <;>
      cases hy : exceptOk (publish_container settings.threads_access_token
          settings.threads_user_id env.publishResp) <;>
        simp [hx, hy]

/-- C2 witness: a concrete run with captioning enabled whose image download
fails; container creation and publishing succeed, so the exit code is 0. -/
theorem main_caption_failure_nonfatal_witness :
    (∃ ok, Event.createContainer "" ok ∈ (main envCaptionFails).2)
    ∧ ((main envCaptionFails).1 = 0 ↔
        exceptOk (create_media_container settingsCaptionOn.threads_access_token
          settingsCaptionOn.threads_user_id parW.url "" envCaptionFails.createResp) = true
        ∧ exceptOk (publish_container settingsCaptionOn.threads_access_token
          settingsCaptionOn.threads_user_id envCaptionFails.publishResp) = true) :=
  main_caption_failure_nonfatal envCaptionFails settingsCaptionOn rfl rfl
    "Failed to download image for captioning: boom" rfl rfl [objW] rfl
    (by decide) parW rfl

/-- C3: If container creation and publish succeed, a failing object
deletion is logged only: the delete attempt is in the trace with a failure
outcome, and the run still returns exit code 0. -/
theorem main_delete_failure_keeps_success (env : Env) (settings : Settings)
    (hls : load_settings env.sysEnv = .ok settings)
    (hoff : settings.enable_captioning = false)
    (hstore : env.storageInit = .ok ())
    (objects : List ObjectRef) (hlist : env.listResult = .ok objects)
    (hne : objects ≠ [])
    (p : PreauthenticatedRequest) (hpar : env.parResult = .ok p)
    (cid : JsonVal)
    (hcreate : create_media_container settings.threads_access_token
      settings.threads_user_id p.url "" env.createResp = .ok cid)
    (tid : JsonVal)
    (hpub : publish_container settings.threads_access_token
      settings.threads_user_id env.publishResp = .ok tid)
    (derr : String) (hdel : env.deleteResult = .error derr) :
    (main env).1 = 0 ∧ Event.deleteObject false ∈ (main env).2 := by
  have hcs : captionStep env settings = ("", []) := by
    unfold captionStep
    simp [hoff]
  obtain ⟨sel, hsel⟩ : ∃ sel, choose_random_object env.pick objects = .ok sel := by
    have hlen : objects.length ≠ 0 := by
      simpa [List.length_eq_zero] using hne
    exact ⟨_, dif_neg hlen⟩
  unfold main
  simp only [hls, hstore, hlist, hsel, hpar]
  unfold afterPar
  rw [hcs]
  simp only [pyOrStr, if_pos rfl]
  simp [hcreate, hpub, hdel, exceptOk, finish_fst]

/-- C3 witness: a concrete run where everything succeeds except deletion. -/
theorem main_delete_failure_keeps_success_witness :
    (main envDeleteFails).1 = 0 ∧ Event.deleteObject false ∈ (main envDeleteFails).2 :=
  main_delete_failure_keeps_success envDeleteFails settingsCaptionOff rfl rfl rfl
    [objW] rfl (by decide) parW rfl (.str "123") rfl (.str "123") rfl
    "delete failed" rfl

/-- C4: Selecting from an empty object list fails with the storage error;
selecting from a non-empty list returns a member of that list, for every
index the random source can produce. -/
theorem choose_random_object_spec (pick : Nat) (objects : List ObjectRef) :
    (objects = [] →
      choose_random_object pick objects =
        .error "No PNG files found in the specified OCI bucket")
    ∧ (objects ≠ [] →
      ∃ o, choose_random_object pick objects = .ok o ∧ o ∈ objects) := by
  constructor
  · intro h
    subst h
    rfl
  · intro h
    have hlen : objects.length ≠ 0 := by
      simpa [List.length_eq_zero] using h
    refine ⟨objects.get ⟨pick % objects.length, Nat.mod_lt _ (Nat.pos_of_ne_zero hlen)⟩,
      dif_neg hlen, List.get_mem _ _ _⟩

/-- C4 witness: the empty list fails; a singleton list yields its member. -/
theorem choose_random_object_spec_witness :
    choose_random_object 3 ([] : List ObjectRef) =
      .error "No PNG files found in the specified OCI bucket"
    ∧ ∃ o, choose_random_object 0 [objW] = .ok o ∧ o ∈ [objW] :=
  ⟨(choose_random_object_spec 3 []).1 rfl,
    (choose_random_object_spec 0 [objW]).2 (by decide)⟩

/-- C5: A container-creation response whose parsed JSON body has no `id`
field fails with the publishing error, even when the HTTP status is below
400. -/
theorem create_media_container_missing_id (access_token user_id image_url caption : String)
    (response : HttpResponse) (data : JsonVal)
    (hjson : response.jsonBody = some data)
    (hid : data.get "id" = none)
    (hstatus : response.status_code < 400) :
    create_media_container access_token user_id image_url caption response =
      .error "Threads API response did not include a container ID" := by
  unfold create_media_container _handle_response
  rw [hjson]
  have : ¬ response.status_code ≥ 400 := by omega
  simp [this, hid]

/-- C5 witness: a 200 response with an empty JSON object body. -/
theorem create_media_container_missing_id_witness :
    create_media_container "tok" "uid" "url" "cap" respEmptyObj =
      .error "Threads API response did not include a container ID" :=
  create_media_container_missing_id "tok" "uid" "url" "cap" respEmptyObj
    (.obj []) rfl rfl (by decide)

/-- C6: The recorded expiry of a pre-authenticated link equals its creation
time plus `max(duration, 1)` seconds, hence is strictly later than the
creation time and later by at least the clamped duration. -/
theorem presigned_link_expiry (now : Int) (stamp : String) (obj : ObjectRef)
    (expires_in_seconds : Int) :
    (generate_presigned_url_details now stamp obj expires_in_seconds).time_expires
        = now + max expires_in_seconds 1
    ∧ now < (generate_presigned_url_details now stamp obj expires_in_seconds).time_expires
    ∧ now + max expires_in_seconds 1 ≤
        (generate_presigned_url_details now stamp obj expires_in_seconds).time_expires := by
  refine ⟨rfl, ?_, le_of_eq rfl⟩
  have h1 : (1 : Int) ≤ max expires_in_seconds 1 := le_max_right _ _
  unfold generate_presigned_url_details
  simp only []
  omega

theorem exceptBind_ok {ε α β : Type} (a : α) (f : α → Except ε β) :
    ((Except.ok a : Except ε α) >>= f) = f a := rfl

theorem exceptBind_err {ε α β : Type} (e : ε) (f : α → Except ε β) :
    ((Except.error e : Except ε α) >>= f) = .error e := rfl

theorem _get_env_missing (envm : EnvMap) (name : String)
    (h : missingOrEmpty envm name) :
    _get_env envm name = .error ("Missing required environment variable: " ++ name) := by
  unfold _get_env
  rcases h with h | h
  · rw [h]
  · rw [h]
    simp

theorem _get_env_present (envm : EnvMap) (name : String) (v : String)
    (hv : envm name = some v) (hne : v ≠ "") :
    _get_env envm name = .ok v := by
  unfold _get_env
  rw [hv]
  simp [hne]

/-- C7: A required environment variable that is absent or empty makes
configuration loading fail with an error naming that variable (provided the
other required variables are present and the earlier numeric/boolean parses
succeed, so that this is the failure that fires), and the orchestrator then
performs no call to any external service. -/
theorem load_settings_missing_required (env : Env) (envm : EnvMap) (name : String)
    (hsys : env.sysEnv = envm)
    (hname : name ∈ requiredNames)
    (hmiss : missingOrEmpty envm name)
    (hothers : ∀ m ∈ requiredNames, m ≠ name → ∃ v, envm m = some v ∧ v ≠ "")
    (w : Int) (hw : pyInt ((envm "THREADS_MEDIA_WAIT_SECONDS").getD "30") = .ok w)
    (pe : Int)
    (hpe : pyInt ((envm "THREADS_PRESIGN_EXPIRATION_SECONDS").getD "900") = .ok pe)
    (tk : Int) (htk : pyInt ((envm "THREADS_CLAUDE_MAX_TOKENS").getD "120") = .ok tk)
    (b : Bool) (hb : _get_bool envm "THREADS_ENABLE_CAPTIONING" true = .ok b)
    (hanth : b = true → anthropic_key_of envm ≠ "") :
    load_settings envm = .error ("Missing required environment variable: " ++ name)
    ∧ (main env).2.countP isServiceCall = 0 := by
  have herr : load_settings envm =
      .error ("Missing required environment variable: " ++ name) := by
    unfold load_settings
    rw [hw, hpe, htk, hb]
    simp only [exceptBind_ok]
    have hcond : (b && decide (anthropic_key_of envm = "")) = false := by
      cases b
      · rfl
      · simp [hanth rfl]
    rw [hcond]
    simp only [Bool.false_eq_true, if_false]
    fin_cases hname
    · rw [_get_env_missing envm _ hmiss]
      rfl
    · obtain ⟨v1, hv1, hn1⟩ := hothers "THREADS_BUCKET" (by decide) (by decide)
      rw [_get_env_present envm _ v1 hv1 hn1]
      simp only [exceptBind_ok]
      rw [_get_env_missing envm _ hmiss]
      rfl
    · obtain ⟨v1, hv1, hn1⟩ := hothers "THREADS_BUCKET" (by decide) (by decide)
      obtain ⟨v2, hv2, hn2⟩ := hothers "THREADS_ACCESS_TOKEN" (by decide) (by decide)
      rw [_get_env_present envm _ v1 hv1 hn1]
      simp only [exceptBind_ok]
      rw [_get_env_present envm _ v2 hv2 hn2]
      simp only [exceptBind_ok]
      rw [_get_env_missing envm _ hmiss]
      rfl
    · obtain ⟨v1, hv1, hn1⟩ := hothers "THREADS_BUCKET" (by decide) (by decide)
      obtain ⟨v2, hv2, hn2⟩ := hothers "THREADS_ACCESS_TOKEN" (by decide) (by decide)
      obtain ⟨v3, hv3, hn3⟩ := hothers "THREADS_USER_ID" (by decide) (by decide)
      rw [_get_env_present envm _ v1 hv1 hn1]
      simp only [exceptBind_ok]
      rw [_get_env_present envm _ v2 hv2 hn2]
      simp only [exceptBind_ok]
      rw [_get_env_present envm _ v3 hv3 hn3]
      simp only [exceptBind_ok]
      rw [_get_env_missing envm _ hmiss]
      rfl
  refine ⟨herr, ?_⟩
  unfold main
  rw [hsys, herr]
  exact telegramEvents_countP isServiceCall (fun m => rfl) _ _ _

/-- C7 witness: an environment missing `THREADS_BUCKET` only. -/
theorem load_settings_missing_required_witness :
    load_settings (envMapOf pairsMissingBucket) =
      .error ("Missing required environment variable: " ++ "THREADS_BUCKET")
    ∧ (main envMissingBucket).2.countP isServiceCall = 0 :=
  load_settings_missing_required envMissingBucket (envMapOf pairsMissingBucket)
    "THREADS_BUCKET" rfl (by decide) (Or.inl rfl)
    (by
      intro m hm hne
      fin_cases hm
      · exact absurd rfl hne
      · exact ⟨"tok", rfl, by decide⟩
      · exact ⟨"uid", rfl, by decide⟩
      · exact ⟨"ns", rfl, by decide⟩)
    30 rfl 900 rfl 120 rfl false rfl (fun h => Bool.noConfusion h)

/-- C8 counterexample: the string "TRUE" is outside both fixed token sets
yet is accepted (yielding true), because the code strips and lowercases the
value before the membership test; so acceptance is not restricted to the
literal token sets. -/
theorem _get_bool_accepts_unnormalized_token :
    _get_bool (fun _ => some "TRUE") "THREADS_ENABLE_CAPTIONING" false = .ok true
    ∧ "TRUE" ∉ (["1", "true", "yes", "on"] : List String)
    ∧ "TRUE" ∉ (["0", "false", "no", "off"] : List String) :=
  ⟨rfl, by decide, by decide⟩

/-- C8 (amended): after stripping surrounding whitespace and lowercasing,
a supplied boolean value is accepted exactly when it falls in the fixed
truthy token set (yielding true) or the fixed falsy token set (yielding
false); any other string fails loading, and an absent value yields the
default. -/
theorem _get_bool_token_sets (envm : EnvMap) (name : String) (default : Bool) :
    (envm name = none → _get_bool envm name default = .ok default)
    ∧ ∀ raw, envm name = some raw →
        ((pyLower (pyStrip raw) ∈ (["1", "true", "yes", "on"] : List String) →
            _get_bool envm name default = .ok true)
        ∧ (pyLower (pyStrip raw) ∈ (["0", "false", "no", "off"] : List String) →
            _get_bool envm name default = .ok false)
        ∧ (pyLower (pyStrip raw) ∉ (["1", "true", "yes", "on"] : List String) →
            pyLower (pyStrip raw) ∉ (["0", "false", "no", "off"] : List String) →
            _get_bool envm name default =
              .error ("Invalid boolean value for " ++ name ++ ": "
                ++ pyLower (pyStrip raw)))) := by
  refine ⟨fun h => by simp [_get_bool, h], fun raw hraw => ⟨?_, ?_, ?_⟩⟩
  · intro hm
    simp [_get_bool, hraw, hm]
  · intro hm
    have hnot : pyLower (pyStrip raw) ∉ (["1", "true", "yes", "on"] : List String) := by
      intro hcontra
      simp only [List.mem_cons, List.not_mem_nil, or_false] at hm hcontra
      rcases hm with h | h | h | h <;> rcases hcontra with h' | h' | h' | h' <;>
        (rw [h] at h'; exact absurd h' (by decide))
    simp [_get_bool, hraw, hm, hnot]
  · intro h1 h2
    simp [_get_bool, hraw, h1, h2]

/-- C8 witness: a truthy token yields true, an absent variable yields the
default, and an invalid token fails. -/
theorem _get_bool_token_sets_witness :
    _get_bool (envMapOf [("X", "yes")]) "X" false = .ok true
    ∧ _get_bool (envMapOf []) "X" true = .ok true
    ∧ _get_bool (envMapOf [("X", "maybe")]) "X" false =
        .error ("Invalid boolean value for " ++ "X" ++ ": " ++ pyLower (pyStrip "maybe")) :=
  ⟨((_get_bool_token_sets (envMapOf [("X", "yes")]) "X" false).2 "yes" rfl).1 (by decide),
    (_get_bool_token_sets (envMapOf []) "X" true).1 rfl,
    ((_get_bool_token_sets (envMapOf [("X", "maybe")]) "X" false).2 "maybe" rfl).2.2
      (by decide) (by decide)⟩

/-- C9: When the model response contains no text-typed segment, caption
generation returns exactly the configured fallback string. -/
theorem generate_caption_fallback_no_text (config : Settings)
    (content : List ContentBlock)
    (hblocks : ∀ b ∈ content, b.type ≠ "text") :
    generate_caption config (.ok ()) (.ok content) = .ok config.caption_fallback := by
  have hfil : content.filter
      (fun block => block.type == "text" && pyStrip block.text ≠ "") = [] := by
    rw [List.filter_eq_nil_iff]
    intro b hb
    simp [hblocks b hb]
  have hempty : caption_from_content content = "" := by
    unfold caption_from_content
    rw [hfil]
    rfl
  have hred : generate_caption config (.ok ()) (.ok content) =
      if caption_from_content content = "" then .ok config.caption_fallback
      else .ok (caption_from_content content) := rfl
  rw [hred, hempty]
  simp

/-- C9 witness: an empty content list (and one with only non-text blocks)
yields the fallback. -/
theorem generate_caption_fallback_no_text_witness :
    generate_caption settingsCaptionOn (.ok ()) (.ok []) =
      .ok settingsCaptionOn.caption_fallback
    ∧ generate_caption settingsCaptionOn (.ok ())
        (.ok [{ type := "tool_use", text := "ignored" }]) =
      .ok settingsCaptionOn.caption_fallback :=
  ⟨generate_caption_fallback_no_text settingsCaptionOn [] (by simp),
    generate_caption_fallback_no_text settingsCaptionOn
      [{ type := "tool_use", text := "ignored" }] (by decide)⟩

/-- C10: The orchestrator never sleeps for a non-positive duration, and when
the loaded settings carry a zero or negative media wait there is no sleep at
all. -/
theorem main_sleep_clamped (env : Env) :
    (main env).2.countP isNonPositiveSleep = 0
    ∧ ∀ settings, load_settings env.sysEnv = .ok settings →
        settings.media_wait_seconds ≤ 0 →
        (main env).2.countP isSleepEvent = 0 :=
  ⟨main_countP_badSleep env,
    fun settings hls hw => main_countP_sleep_of_nonpos env settings hls hw⟩

/-- C10 witness: a run configured with a negative media wait performs no
sleep. -/
theorem main_sleep_clamped_witness :
    (main envNegativeWait).2.countP isNonPositiveSleep = 0
    ∧ (main envNegativeWait).2.countP isSleepEvent = 0 :=
  ⟨(main_sleep_clamped envNegativeWait).1,
    (main_sleep_clamped envNegativeWait).2 settingsNegativeWait rfl (by decide)⟩

end ThreadsPoster
